import Mathlib

/-
Verification of the pyUbersolar BLE client library.

This file gives a shallow embedding of the protocol codec, the command
dispatcher retry loop, the idle-disconnect timer callback and the switch
toggle operations of the repository, together with theorems settling the
frozen specification claims.

Modelling conventions:
- Byte sequences (Python bytearray) are `List Nat`, each element a byte value.
- Python slicing data[a:b] is `pySlice`, struct.unpack of a fixed-width
  little-endian field is `unpackLE` (returning `none` exactly when the slice
  does not have the exact width, which is when struct.unpack raises).
- float32 fields are represented by their 32-bit little-endian bit pattern
  (a `Nat`); IEEE bit patterns and float values are in bijection apart from
  NaN payloads, and no claim depends on float arithmetic. The bit pattern 0
  corresponds to the float value 0.0.
- Fallible Python code (IndexError, struct.error, ValueError) is modelled
  with Option: `none` means the Python code raises.
- The formatted timestamp string of the tag-3 frame is abstracted by the
  raw unsigned 64-bit epoch value it is derived from; the partiality of
  datetime.fromtimestamp on out-of-range epochs is kept (see fromtimestamp).
-/

/-- Python slice data[a:b] on a byte sequence (for 0 <= a <= b). -/
def pySlice (l : List Nat) (a b : Nat) : List Nat := (l.drop a).take (b - a)

/-- Little-endian value of a byte list (first byte least significant). -/
def leNat (bs : List Nat) : Nat := bs.foldr (fun b acc => b + 256 * acc) 0

/-- struct.unpack of one little-endian field of width w: Python raises unless
the buffer length is exactly w; we model the raised error as none and return
the little-endian value (for float fields, the raw bit pattern). -/
def unpackLE (w : Nat) (bs : List Nat) : Option Nat :=
  if bs.length = w then some (leNat bs) else none

/-- Value of an unsigned 16-bit pattern read as signed (struct format "<h"). -/
def asInt16 (n : Nat) : Int := if n < 32768 then (n : Int) else (n : Int) - 65536

/-- Value of an unsigned byte read as signed two-complement. -/
def asInt8 (n : Nat) : Int := if n < 128 then (n : Int) else (n : Int) - 256

/-- Mirror of the UberSmartStatus TypedDict of pyubersolar/models.py
(total=False: every field optional). A decoded notification fragment sets
just the fields of its tag; merging into the aggregated status is keywise.
Float32 fields hold the raw little-endian bit pattern. -/
structure UberSmartStatus where
  fWaterTemperature : Option Nat := none
  fManifoldTemperature : Option Nat := none
  fStoredWater : Option Nat := none
  bElementOn : Option Nat := none
  bPumpOn : Option Nat := none
  bHolidayMode : Option Nat := none
  eSolenoidMode : Option Nat := none
  fSolenoidState : Option Nat := none
  AllSwitches : Option (List Nat) := none
  lluTime : Option Nat := none
  fHours : Option Nat := none
  wLux : Option Nat := none
  wRSSI : Option Int := none
  fPanelVoltage : Option Nat := none
  fChipTemp : Option Nat := none
  fWaterLevel : Option Nat := none
  fTankSize : Option Nat := none
  bPanelFaultCode : Option Nat := none
  bElementFaultCode : Option Nat := none
  bPumpFultCode : Option Nat := none
  bSolenoidFaultCode : Option Nat := none
deriving DecidableEq

/-- datetime.datetime.fromtimestamp on the non-negative epoch unpacked from
a tag-3 frame: from the year 10000 on the conversion raises (none), since
the result would exceed datetime.max. 253402300800 is the epoch of
10000-01-01 UTC; the platform-local boundary differs from it by at most the
local UTC offset. The strftime formatting of an in-range result is
abstracted by the epoch value itself. -/
def fromtimestamp (t : Nat) : Option Nat :=
  if t < 253402300800 then some t else none

/-- Embedding of process_ubersmart (ubersolar/adv_parsers/ubersmart.py).
data[0] raises IndexError on an empty input (modelled by none); each branch
unpacks the fixed-width little-endian fields of its tag, any short slice
making struct.unpack raise (none); the tag-3 branch additionally raises
when datetime.fromtimestamp rejects the unpacked epoch; an unknown tag
yields the empty fragment. -/
def process_ubersmart (data : List Nat) : Option UberSmartStatus :=
  match data.get? 0 with
  | none => none
  | some tag =>
    if tag = 1 then do
      let w ← unpackLE 4 (pySlice data 1 5)
      let m ← unpackLE 4 (pySlice data 5 9)
      let s ← unpackLE 4 (pySlice data 9 13)
      pure { fWaterTemperature := some w, fManifoldTemperature := some m,
             fStoredWater := some s }
    else if tag = 2 then do
      let e ← data.get? 1
      let p ← data.get? 2
      let h ← data.get? 3
      let sm ← data.get? 4
      let ss ← unpackLE 4 (pySlice data 5 9)
      pure { bElementOn := some e, bPumpOn := some p, bHolidayMode := some h,
             eSolenoidMode := some sm, fSolenoidState := some ss }
    else if tag = 3 then do
      let t ← unpackLE 8 (pySlice data 1 9)
      let ft ← fromtimestamp t
      let hrs ← unpackLE 4 (pySlice data 9 13)
      let lux ← unpackLE 2 (pySlice data 13 15)
      pure { lluTime := some ft, fHours := some hrs, wLux := some lux }
    else if tag = 4 then do
      let rssi ← unpackLE 2 (pySlice data 1 3)
      let pv ← unpackLE 4 (pySlice data 3 7)
      let ct ← unpackLE 4 (pySlice data 7 11)
      let wl ← unpackLE 4 (pySlice data 11 15)
      let ts ← unpackLE 4 (pySlice data 15 19)
      pure { wRSSI := some (asInt16 rssi), fPanelVoltage := some pv,
             fChipTemp := some ct, fWaterLevel := some wl, fTankSize := some ts }
    else if tag = 5 then do
      let pf ← unpackLE 1 (pySlice data 1 2)
      let ef ← unpackLE 1 (pySlice data 2 3)
      let uf ← unpackLE 1 (pySlice data 3 4)
      let sf ← unpackLE 1 (pySlice data 4 5)
      pure { bPanelFaultCode := some pf, bElementFaultCode := some ef,
             bPumpFultCode := some uf, bSolenoidFaultCode := some sf }
    else some {}

/-- Little-endian 8-byte encoding of an unsigned 64-bit value
(struct format "<Q"). -/
def packQLE (n : Nat) : List Nat :=
  [n % 256, n / 256 % 256, n / 256 ^ 2 % 256, n / 256 ^ 3 % 256,
   n / 256 ^ 4 % 256, n / 256 ^ 5 % 256, n / 256 ^ 6 % 256, n / 256 ^ 7 % 256]

/-- Truncation toward zero of s / d, which is the value of the Python
expression int(s / d): float division followed by int() truncation. The
float rounding cannot move the quotient across an integer for the magnitudes
that occur here (datetime guarantees the utcoffset magnitude is below one
day, 86400 seconds), so exact truncating division is the faithful model. -/
def truncDiv (s : Int) (d : Nat) : Int :=
  if 0 ≤ s then ((s.toNat / d : Nat) : Int) else -(((-s).toNat / d : Nat) : Int)

/-- Clamp of the offset-hours value as written in _build_time_payload:
left unchanged inside [-128, 127], otherwise max(-128, min(127, h)). -/
def clampOffsetHours (h : Int) : Int :=
  if -128 ≤ h ∧ h ≤ 127 then h else max (-128) (min 127 h)

/-- Python h & 0xFF on a signed int: the unique value in [0, 255] congruent
to h modulo 256 (two-complement semantics), which is Int.emod. -/
def pyAnd255 (h : Int) : Nat := (h % 256).toNat

/-- Embedding of _build_time_payload (pyubersolar/devices/ubersmart.py).
The datetime argument is modelled by the pair of its utcoffset in seconds
(none for a timezone-naive value, which the code first replaces with UTC,
making the utcoffset zero) and the already-computed int(value.timestamp())
epoch value. struct.pack("<Qxxxx", epoch) is the 8 little-endian timestamp
bytes followed by four zero padding bytes, and raises (none) unless the
epoch fits in an unsigned 64-bit value; then byte index 9 is overwritten
with offset_hours & 0xFF. -/
def build_time_payload (tzOffsetSeconds : Option Int) (epoch : Nat) :
    Option (List Nat) :=
  if epoch < 2 ^ 64 then
    some ((packQLE epoch ++ [0, 0, 0, 0]).set 9
      (pyAnd255 (clampOffsetHours (truncDiv (tzOffsetSeconds.getD 0) 3600))))
  else none

/-- Byte index 9 of a built payload read back as a signed value. -/
def readByte9 (p : Option (List Nat)) : Option Int :=
  p.bind fun l => (l.get? 9).map asInt8

namespace ubersolar

/-- Embedding of the payload built by set_current_time
(ubersolar/devices/ubersmart.py): struct.pack("<Qxxxx", current_time) with
byte 9 then set to the constant utc offset 2. -/
def set_current_time_payload (epoch : Nat) : Option (List Nat) :=
  if epoch < 2 ^ 64 then some ((packQLE epoch ++ [0, 0, 0, 0]).set 9 2)
  else none

/-- turn_on_element of ubersolar/devices/ubersmart.py acting on the cached
AllSwitches buffer: byte 0 becomes the toggle opcode 6, byte 1 becomes 1. -/
def turn_on_element (b : List Nat) : List Nat := (b.set 0 6).set 1 1

/-- turn_off_element: byte 0 becomes 6, byte 1 becomes 0. -/
def turn_off_element (b : List Nat) : List Nat := (b.set 0 6).set 1 0

/-- turn_on_pump: byte 0 becomes 6, byte 2 becomes 1. -/
def turn_on_pump (b : List Nat) : List Nat := (b.set 0 6).set 2 1

/-- turn_off_pump: byte 0 becomes 6, byte 2 becomes 0. -/
def turn_off_pump (b : List Nat) : List Nat := (b.set 0 6).set 2 0

/-- turn_on_holiday: byte 0 becomes 6, byte 3 becomes 1. -/
def turn_on_holiday (b : List Nat) : List Nat := (b.set 0 6).set 3 1

/-- turn_off_holiday: byte 0 becomes 6, byte 3 becomes 0. -/
def turn_off_holiday (b : List Nat) : List Nat := (b.set 0 6).set 3 0

/-- set_solinoid_off: byte 0 becomes 6, byte 4 becomes 0. -/
def set_solinoid_off (b : List Nat) : List Nat := (b.set 0 6).set 4 0

/-- set_solinoid_on: byte 0 becomes 6, byte 4 becomes 1. -/
def set_solinoid_on (b : List Nat) : List Nat := (b.set 0 6).set 4 1

/-- set_solinoid_auto: byte 0 becomes 6, byte 4 becomes 2. -/
def set_solinoid_auto (b : List Nat) : List Nat := (b.set 0 6).set 4 2

end ubersolar

namespace pyubersolar

/-- turn_on_element of pyubersolar/devices/ubersmart.py: byte 0 becomes 6,
byte 1 becomes 1 and additionally byte 2 (the pump) is forced to 0. -/
def turn_on_element (b : List Nat) : List Nat := ((b.set 0 6).set 1 1).set 2 0

/-- turn_off_element of the pyubersolar variant (same as ubersolar). -/
def turn_off_element (b : List Nat) : List Nat := (b.set 0 6).set 1 0

/-- turn_on_pump of pyubersolar: byte 0 becomes 6, byte 1 (the element) is
forced to 0 and byte 2 becomes 1. -/
def turn_on_pump (b : List Nat) : List Nat := ((b.set 0 6).set 1 0).set 2 1

/-- turn_off_pump of the pyubersolar variant (same as ubersolar). -/
def turn_off_pump (b : List Nat) : List Nat := (b.set 0 6).set 2 0

/-- turn_on_holiday of the pyubersolar variant (same as ubersolar). -/
def turn_on_holiday (b : List Nat) : List Nat := (b.set 0 6).set 3 1

/-- turn_off_holiday of the pyubersolar variant (same as ubersolar). -/
def turn_off_holiday (b : List Nat) : List Nat := (b.set 0 6).set 3 0

/-- set_solinoid_off of the pyubersolar variant (same as ubersolar). -/
def set_solinoid_off (b : List Nat) : List Nat := (b.set 0 6).set 4 0

/-- set_solinoid_on of the pyubersolar variant (same as ubersolar). -/
def set_solinoid_on (b : List Nat) : List Nat := (b.set 0 6).set 4 1

/-- set_solinoid_auto of the pyubersolar variant (same as ubersolar). -/
def set_solinoid_auto (b : List Nat) : List Nat := (b.set 0 6).set 4 2

end pyubersolar

/-- bytearray.fromhex on a string of hex digits (each element one digit
value): raises ValueError on an odd number of digits (none), otherwise
combines consecutive digit pairs into bytes. -/
def fromhexPairs : List Nat → Option (List Nat)
  | [] => some []
  | [_] => none
  | a :: b :: rest => (fromhexPairs rest).map (fun t => (16 * a + b) :: t)

/-- Embedding of toggle_switches_all (identical in both variants): the
length-8 check only logs an error (first component: whether the error was
logged), then the command string "06" followed by the switches hex string is
hex-decoded and sent unconditionally; the second component is the byte
command actually sent, none when bytearray.fromhex raises. -/
def toggle_switches_all (switches : List Nat) : Bool × Option (List Nat) :=
  (decide (switches.length ≠ 8), fromhexPairs (0 :: 6 :: switches))

/-- Python bytearray item assignment b[i] = v: raises IndexError (none)
when the index is out of range, otherwise stores the byte. -/
def pySetItem (b : List Nat) (i v : Nat) : Option (List Nat) :=
  if i < b.length then some (b.set i v) else none

/-- Common body of the single-switch toggle methods that mutate one switch
byte (all nine of ubersolar and the seven non-exclusive pyubersolar ones):
the 5-byte check only logs (first component: whether the error was logged),
then byte 0 := 6 and byte idx := v are assigned on the cached buffer
(IndexError, none, when out of range) and the resulting buffer is sent as
the command — its hex string round-trips to the same bytes.
turn_on_element is idx = 1, v = 1; turn_off_element idx = 1, v = 0;
turn_on_pump idx = 2, v = 1; turn_off_pump idx = 2, v = 0; the holiday
toggles use idx = 3 and the solinoid ones idx = 4 with v in 0, 1, 2. -/
def toggle_single_cmd (idx v : Nat) (b : List Nat) :
    Bool × Option (List Nat) :=
  (decide (b.length ≠ 5),
    (pySetItem b 0 6).bind fun b1 => pySetItem b1 idx v)

/-- Common body of the two pyubersolar exclusivity toggles, which assign
byte 0 := 6, byte 1 := v1 and byte 2 := v2 after the only-logging 5-byte
check: turn_on_element is v1 = 1, v2 = 0 and turn_on_pump is v1 = 0,
v2 = 1. -/
def toggle_excl_cmd (v1 v2 : Nat) (b : List Nat) :
    Bool × Option (List Nat) :=
  (decide (b.length ≠ 5),
    (pySetItem b 0 6).bind fun b1 =>
      (pySetItem b1 1 v1).bind fun b2 => pySetItem b2 2 v2)

/-- Outcome of one _send_command_locked attempt, the four cases distinguished
by the except clauses of _send_command: success with a response, a
BleakNotFoundError, a CharacteristicMissingError, or one of the generic
transient BLEAK_RETRY_EXCEPTIONS. -/
inductive AttemptOutcome where
  | success (resp : List Nat)
  | notFound
  | charMissing
  | transient
deriving DecidableEq

/-- Result of _send_command: a returned response or a propagated exception
(errRuntime is the trailing unreachable RuntimeError after the loop). -/
inductive SendResult where
  | ok (resp : List Nat)
  | errNotFound
  | errCharMissing
  | errTransient
  | errRuntime
deriving DecidableEq

/-- Whether an attempt outcome is one of the retryable failure classes. -/
def Retryable (o : AttemptOutcome) : Prop :=
  o = AttemptOutcome.charMissing ∨ o = AttemptOutcome.transient

instance (o : AttemptOutcome) : Decidable (Retryable o) := by
  unfold Retryable; infer_instance

/-- Body of the retry loop of _send_command: for attempt in
range(max_attempts) with max_attempts = retry + 1. The outcome of attempt i
is outcomes i; a success returns, BleakNotFoundError re-raises immediately,
the two retryable classes re-raise exactly when attempt == retry and
otherwise continue with the next attempt. The fuel starts at retry + 1
(the range bound); exhausting it is the unreachable RuntimeError. Returns
the dispatcher result together with the number of attempts made. -/
def send_attempt_loop (outcomes : Nat → AttemptOutcome) (retry : Nat) :
    Nat → Nat → SendResult × Nat
  | attempt, 0 => (SendResult.errRuntime, attempt)
  | attempt, fuel + 1 =>
    match outcomes attempt with
    | AttemptOutcome.success r => (SendResult.ok r, attempt + 1)
    | AttemptOutcome.notFound => (SendResult.errNotFound, attempt + 1)
    | AttemptOutcome.charMissing =>
      if attempt = retry then (SendResult.errCharMissing, attempt + 1)
      else send_attempt_loop outcomes retry (attempt + 1) fuel
    | AttemptOutcome.transient =>
      if attempt = retry then (SendResult.errTransient, attempt + 1)
      else send_attempt_loop outcomes retry (attempt + 1) fuel

/-- Embedding of _send_command (ubersolar/devices/device.py) with an explicit
retry limit: runs the attempt loop from attempt 0 with range bound
retry + 1. -/
def send_command (retry : Nat) (outcomes : Nat → AttemptOutcome) :
    SendResult × Nat :=
  send_attempt_loop outcomes retry 0 (retry + 1)

/-- Abstraction of the session fields consulted by the idle-disconnect timer
callback: whether the operation guard is held, whether a transport client
object exists, whether that client is still connected, whether the timer is
armed, and the expected-disconnect flag. -/
structure SessionState where
  operationLocked : Bool
  hasClient : Bool
  clientConnected : Bool
  timerArmed : Bool
  expectedDisconnect : Bool
deriving DecidableEq

/-- Embedding of _reset_disconnect_timer: cancel any pending timer, clear the
expected-disconnect flag, arm a fresh timer. -/
def reset_disconnect_timer (s : SessionState) : SessionState :=
  { s with timerArmed := true, expectedDisconnect := false }

/-- What the timer callback does when it fires. -/
inductive TimerFireStep where
  | rearmed (s : SessionState)
  | disconnectScheduled (s : SessionState)
  | attributeError
deriving DecidableEq

/-- Embedding of _disconnect_from_timer: the guard condition is
self._operation_lock.locked() and self._client.is_connected, evaluated with
Python short-circuiting, so with the guard held but _client None the
attribute access raises AttributeError; with the guard held and the client
connected the timer is rearmed; in every other case the timer is cancelled
and a timed disconnect task is scheduled. -/
def disconnect_from_timer (s : SessionState) : TimerFireStep :=
  if s.operationLocked then
    if s.hasClient then
      if s.clientConnected then TimerFireStep.rearmed (reset_disconnect_timer s)
      else TimerFireStep.disconnectScheduled { s with timerArmed := false }
    else TimerFireStep.attributeError
  else TimerFireStep.disconnectScheduled { s with timerArmed := false }

/-- Embedding of _check_command_result (ubersolar/devices/device.py): raises
UberSmartOperationError (modelled as error) when the result is None or empty
or when len(result) - 1 < index; otherwise returns whether result[index] is
in the expected value set, without raising. -/
def check_command_result (result : Option (List Nat)) (index : Nat)
    (values : List Nat) : Except Unit Bool :=
  match result with
  | none => Except.error ()
  | some r =>
    if r.length = 0 then Except.error ()
    else if r.length - 1 < index then Except.error ()
    else Except.ok (values.contains (r.getD index 0))

/-- Helper: a list of length five is a literal five-element list. -/
theorem length_five_decomp (b : List Nat) (hb : b.length = 5) :
    ∃ x0 x1 x2 x3 x4, b = [x0, x1, x2, x3, x4] := by
  rcases b with _ | ⟨x0, _ | ⟨x1, _ | ⟨x2, _ | ⟨x3, _ | ⟨x4, _ | ⟨x5, t⟩⟩⟩⟩⟩⟩ <;>
    simp_all

/-- C1: the tag-2 frame 02 01 00 00 00 00 00 00 00 decodes to the fragment
with element-on 1, pump-on 0, holiday-mode 0, solenoid-mode 0 and solenoid
analog state with bit pattern 0 (the float value 0.0); however the decoded
result carries no AllSwitches buffer at all — the parser never retains
bytes 0..5, although every toggle method and the UberSmartStatus
declaration require that field. -/
theorem c1_process_ubersmart_tag2_example :
    process_ubersmart [2, 1, 0, 0, 0, 0, 0, 0, 0] =
      some { bElementOn := some 1, bPumpOn := some 0, bHolidayMode := some 0,
             eSolenoidMode := some 0, fSolenoidState := some 0 } ∧
    (process_ubersmart [2, 1, 0, 0, 0, 0, 0, 0, 0]).map
      UberSmartStatus.AllSwitches = some none := by
  decide

/-- C3 counterexample: in the session state where the operation guard is
held but the transport client is no longer connected (reachable after an
unexpected mid-operation disconnect), the fired timer callback does not
rearm the timer: it cancels it and schedules a timed disconnect, so a
disconnect can occur while an operation is in flight. -/
theorem c3_timer_counterexample :
    (SessionState.mk true true false true false).operationLocked = true ∧
    disconnect_from_timer (SessionState.mk true true false true false) ≠
      TimerFireStep.rearmed
        (reset_disconnect_timer (SessionState.mk true true false true false)) ∧
    disconnect_from_timer (SessionState.mk true true false true false) =
      TimerFireStep.disconnectScheduled
        (SessionState.mk true true false false false) := by
  decide

/-- C3 (amended): when the timer fires with the operation guard held and a
client object present, the callback rearms the timer (and performs no
disconnect) exactly when that client is still connected. -/
theorem c3_timer_rearm_iff_connected :
    ∀ s : SessionState, s.operationLocked = true → s.hasClient = true →
      (disconnect_from_timer s =
          TimerFireStep.rearmed (reset_disconnect_timer s) ↔
        s.clientConnected = true) := by
  intro s h1 h2
  rcases s with ⟨op, hc, cc, ta, ed⟩
  subst h1
  subst h2
  cases cc <;> simp [disconnect_from_timer, reset_disconnect_timer]

/-- C3 witness: with guard held, client present and connected, the fired
timer is rearmed. -/
theorem c3_timer_rearm_witness :
    disconnect_from_timer (SessionState.mk true true true true false) =
      TimerFireStep.rearmed
        (reset_disconnect_timer (SessionState.mk true true true true false)) :=
  (c3_timer_rearm_iff_connected (SessionState.mk true true true true false)
    rfl rfl).mpr rfl

/-- C6 counterexample: a present response byte that is not in the expected
set does not raise: check_command_result returns ok false instead of an
operation error. -/
theorem c6_counterexample :
    check_command_result (some [7]) 0 [1] = Except.ok false ∧
    (7 : Nat) ∉ [1] :=
  ⟨rfl, by decide⟩

/-- C6 (amended): check_command_result raises exactly when the response is
absent, empty, or too short for the expected index; when the indexed byte
exists it returns the Boolean set membership of that byte without raising. -/
theorem c6_check_result_classification :
    ∀ (result : Option (List Nat)) (index : Nat) (values : List Nat),
      (result = none →
        check_command_result result index values = Except.error ()) ∧
      (∀ r, result = some r → r.length ≤ index →
        check_command_result result index values = Except.error ()) ∧
      (∀ r, result = some r → index < r.length →
        check_command_result result index values =
          Except.ok (values.contains (r.getD index 0))) := by
  refine fun result index values => ⟨?_, ?_, ?_⟩
  · rintro rfl; rfl
  · rintro r rfl hle
    show (if r.length = 0 then Except.error () else _) = _
    split_ifs with h0 h1
    · rfl
    · rfl
    · omega
  · rintro r rfl hlt
    show (if r.length = 0 then Except.error () else _) = _
    split_ifs with h0 h1
    · omega
    · omega
    · rfl

/-- C6 witness: the classification at concrete inputs — an absent result
errors, a too-short result errors, and a present matching byte returns ok
true. -/
theorem c6_check_result_witness :
    check_command_result none 0 [] = Except.error () ∧
    check_command_result (some [5]) 3 [] = Except.error () ∧
    check_command_result (some [7]) 0 [7] = Except.ok true := by
  refine ⟨(c6_check_result_classification none 0 []).1 rfl,
    (c6_check_result_classification (some [5]) 3 []).2.1 [5] rfl (by decide),
    ?_⟩
  have h := (c6_check_result_classification (some [7]) 0 [7]).2.2 [7] rfl
    (by decide)
  exact h.trans rfl

/-- Property: every switch toggle of both variants is idempotent on the
buffer b. -/
def TogglesIdempotentAt (b : List Nat) : Prop :=
  ubersolar.turn_on_element (ubersolar.turn_on_element b) =
    ubersolar.turn_on_element b ∧
  ubersolar.turn_off_element (ubersolar.turn_off_element b) =
    ubersolar.turn_off_element b ∧
  ubersolar.turn_on_pump (ubersolar.turn_on_pump b) =
    ubersolar.turn_on_pump b ∧
  ubersolar.turn_off_pump (ubersolar.turn_off_pump b) =
    ubersolar.turn_off_pump b ∧
  ubersolar.turn_on_holiday (ubersolar.turn_on_holiday b) =
    ubersolar.turn_on_holiday b ∧
  ubersolar.turn_off_holiday (ubersolar.turn_off_holiday b) =
    ubersolar.turn_off_holiday b ∧
  ubersolar.set_solinoid_off (ubersolar.set_solinoid_off b) =
    ubersolar.set_solinoid_off b ∧
  ubersolar.set_solinoid_on (ubersolar.set_solinoid_on b) =
    ubersolar.set_solinoid_on b ∧
  ubersolar.set_solinoid_auto (ubersolar.set_solinoid_auto b) =
    ubersolar.set_solinoid_auto b ∧
  pyubersolar.turn_on_element (pyubersolar.turn_on_element b) =
    pyubersolar.turn_on_element b ∧
  pyubersolar.turn_off_element (pyubersolar.turn_off_element b) =
    pyubersolar.turn_off_element b ∧
  pyubersolar.turn_on_pump (pyubersolar.turn_on_pump b) =
    pyubersolar.turn_on_pump b ∧
  pyubersolar.turn_off_pump (pyubersolar.turn_off_pump b) =
    pyubersolar.turn_off_pump b ∧
  pyubersolar.turn_on_holiday (pyubersolar.turn_on_holiday b) =
    pyubersolar.turn_on_holiday b ∧
  pyubersolar.turn_off_holiday (pyubersolar.turn_off_holiday b) =
    pyubersolar.turn_off_holiday b ∧
  pyubersolar.set_solinoid_off (pyubersolar.set_solinoid_off b) =
    pyubersolar.set_solinoid_off b ∧
  pyubersolar.set_solinoid_on (pyubersolar.set_solinoid_on b) =
    pyubersolar.set_solinoid_on b ∧
  pyubersolar.set_solinoid_auto (pyubersolar.set_solinoid_auto b) =
    pyubersolar.set_solinoid_auto b

/-- C7: on every cached 5-byte AllSwitches buffer, applying any toggle
operation of either variant twice yields the same 5-byte buffer as applying
it once (the mutations only store constants into fixed positions). -/
theorem c7_toggles_idempotent :
    ∀ b : List Nat, b.length = 5 → TogglesIdempotentAt b := by
  intro b hb
  obtain ⟨x0, x1, x2, x3, x4, rfl⟩ := length_five_decomp b hb
  unfold TogglesIdempotentAt
  exact ⟨rfl, rfl, rfl, rfl, rfl, rfl, rfl, rfl, rfl, rfl, rfl, rfl, rfl,
    rfl, rfl, rfl, rfl, rfl⟩

/-- C7 witness: idempotence instantiated on the all-zero 5-byte buffer. -/
theorem c7_toggles_idempotent_witness :
    ([0, 0, 0, 0, 0] : List Nat).length = 5 ∧
      TogglesIdempotentAt [0, 0, 0, 0, 0] :=
  ⟨rfl, c7_toggles_idempotent [0, 0, 0, 0, 0] rfl⟩

/-- C8: on every 5-byte buffer whose pump byte is set, the pyubersolar
turn_on_element forces the pump byte to 0 while the ubersolar variant leaves
it unchanged, so the two implementations of turn_on_element disagree on such
inputs. -/
theorem c8_turn_on_element_variants_diverge :
    ∀ b : List Nat, b.length = 5 → b.getD 2 0 ≠ 0 →
      pyubersolar.turn_on_element b ≠ ubersolar.turn_on_element b ∧
      (pyubersolar.turn_on_element b).getD 2 0 = 0 ∧
      (ubersolar.turn_on_element b).getD 2 0 = b.getD 2 0 := by
  intro b hb hx
  obtain ⟨x0, x1, x2, x3, x4, rfl⟩ := length_five_decomp b hb
  refine ⟨fun h => hx ?_, rfl, rfl⟩
  have h2 : (0 : Nat) = x2 := by
    simpa [pyubersolar.turn_on_element, ubersolar.turn_on_element] using h
  simpa using h2.symm

/-- C8 witness: the divergence at the buffer 00 00 01 00 00 (pump on). -/
theorem c8_turn_on_element_variants_diverge_witness :
    pyubersolar.turn_on_element [0, 0, 1, 0, 0] ≠
        ubersolar.turn_on_element [0, 0, 1, 0, 0] ∧
      (pyubersolar.turn_on_element [0, 0, 1, 0, 0]).getD 2 0 = 0 ∧
      (ubersolar.turn_on_element [0, 0, 1, 0, 0]).getD 2 0 =
        ([0, 0, 1, 0, 0] : List Nat).getD 2 0 :=
  c8_turn_on_element_variants_diverge [0, 0, 1, 0, 0] rfl (by decide)

/-- Helper: when every outcome from the current attempt through the limit is
retryable, the loop uses up all remaining attempts and finishes by
re-raising the retryable failure of the final attempt. -/
theorem send_loop_all_retryable (outcomes : Nat → AttemptOutcome)
    (retry : Nat) :
    ∀ fuel attempt, attempt + fuel = retry + 1 → attempt ≤ retry →
      (∀ i, attempt ≤ i → i ≤ retry → Retryable (outcomes i)) →
      (send_attempt_loop outcomes retry attempt fuel).2 = retry + 1 ∧
        ((send_attempt_loop outcomes retry attempt fuel).1 =
            SendResult.errCharMissing ∨
          (send_attempt_loop outcomes retry attempt fuel).1 =
            SendResult.errTransient) := by
  intro fuel
  induction fuel with
  | zero => intro attempt h1 h2 _; omega
  | succ f ih =>
    intro attempt h1 h2 hr
    have hra := hr attempt le_rfl h2
    by_cases he : attempt = retry
    · subst he
      rcases hra with h | h <;> simp [send_attempt_loop, h]
    · have key : send_attempt_loop outcomes retry attempt (f + 1) =
          send_attempt_loop outcomes retry (attempt + 1) f := by
        rcases hra with h | h <;> simp [send_attempt_loop, h, he]
      rw [key]
      exact ih (attempt + 1) (by omega) (by omega)
        (fun i hi1 hi2 => hr i (by omega) hi2)

/-- Helper: when attempt k fails with device-not-found and every earlier
outcome is retryable, the loop stops right at attempt k, re-raising
immediately. -/
theorem send_loop_notfound (outcomes : Nat → AttemptOutcome) (retry : Nat) :
    ∀ fuel attempt k, attempt ≤ k → k ≤ retry → attempt + fuel = retry + 1 →
      outcomes k = AttemptOutcome.notFound →
      (∀ i, attempt ≤ i → i < k → Retryable (outcomes i)) →
      send_attempt_loop outcomes retry attempt fuel =
        (SendResult.errNotFound, k + 1) := by
  intro fuel
  induction fuel with
  | zero => intro attempt k h1 h2 h3 _ _; omega
  | succ f ih =>
    intro attempt k h1 h2 h3 hk hr
    by_cases he : attempt = k
    · subst he
      simp [send_attempt_loop, hk]
    · have hak : attempt < k := lt_of_le_of_ne h1 he
      have hra := hr attempt le_rfl hak
      have hne : attempt ≠ retry := by omega
      have key : send_attempt_loop outcomes retry attempt (f + 1) =
          send_attempt_loop outcomes retry (attempt + 1) f := by
        rcases hra with h | h <;> simp [send_attempt_loop, h, hne]
      rw [key]
      exact ih (attempt + 1) k (by omega) h2 (by omega) hk
        (fun i hi1 hi2 => hr i (by omega) hi2)

/-- C2: with retry limit N, the dispatcher makes exactly N + 1 attempts
before a retryable failure (missing characteristic or generic transient
transport failure) becomes fatal and propagates, while a device-not-found
failure at attempt k propagates immediately after exactly k + 1 attempts. -/
theorem c2_send_command_retry_bound :
    ∀ (N : Nat) (outcomes : Nat → AttemptOutcome),
      ((∀ i, i ≤ N → Retryable (outcomes i)) →
        (send_command N outcomes).2 = N + 1 ∧
          ((send_command N outcomes).1 = SendResult.errCharMissing ∨
            (send_command N outcomes).1 = SendResult.errTransient)) ∧
      (∀ k, k ≤ N → outcomes k = AttemptOutcome.notFound →
        (∀ i, i < k → Retryable (outcomes i)) →
        send_command N outcomes = (SendResult.errNotFound, k + 1)) := by
  intro N outcomes
  constructor
  · intro hr
    exact send_loop_all_retryable outcomes N (N + 1) 0 (by omega) (by omega)
      (fun i _ h2 => hr i h2)
  · intro k hk hnf hr
    exact send_loop_notfound outcomes N (N + 1) 0 k (by omega) hk (by omega)
      hnf (fun i _ h2 => hr i h2)

/-- C2 witness: with retry limit 2, three transient failures consume exactly
3 attempts and propagate as a transient error; with a device-not-found
failure at attempt 1 after one retryable failure, exactly 2 attempts occur
and the not-found error propagates. -/
theorem c2_send_command_retry_bound_witness :
    ((send_command 2 (fun _ => AttemptOutcome.transient)).2 = 2 + 1 ∧
      ((send_command 2 (fun _ => AttemptOutcome.transient)).1 =
          SendResult.errCharMissing ∨
        (send_command 2 (fun _ => AttemptOutcome.transient)).1 =
          SendResult.errTransient)) ∧
    send_command 2
        (fun i => if i = 1 then AttemptOutcome.notFound
          else AttemptOutcome.charMissing) =
      (SendResult.errNotFound, 2) := by
  constructor
  · exact (c2_send_command_retry_bound 2 (fun _ => AttemptOutcome.transient)).1
      (fun i _ => Or.inr rfl)
  · exact (c2_send_command_retry_bound 2
        (fun i => if i = 1 then AttemptOutcome.notFound
          else AttemptOutcome.charMissing)).2 1 (by omega) rfl
      (fun i hi => by
        have h0 : i = 0 := by omega
        subst h0
        exact Or.inl rfl)

/-- Helper: byte index 9 of the built 12-byte buffer reads back the value
stored there. -/
theorem set9_get (epoch v : Nat) :
    ((packQLE epoch ++ [0, 0, 0, 0]).set 9 v).get? 9 = some v := rfl

/-- Helper: truncating division of a sub-day offset by 3600 lies strictly
between -24 and 24. -/
theorem truncDiv_bounds (s : Int) (h1 : -86400 < s) (h2 : s < 86400) :
    -24 < truncDiv s 3600 ∧ truncDiv s 3600 < 24 := by
  unfold truncDiv
  split <;> constructor <;> omega

/-- Helper: reading h & 0xFF back as a signed byte recovers h on
[-128, 127]. -/
theorem asInt8_pyAnd255 (h : Int) (h1 : -128 ≤ h) (h2 : h ≤ 127) :
    asInt8 (pyAnd255 h) = h := by
  unfold asInt8 pyAnd255
  split <;> omega

/-- Helper: the clamp is the identity on [-128, 127]. -/
theorem clampOffsetHours_id (h : Int) (h1 : -128 ≤ h) (h2 : h ≤ 127) :
    clampOffsetHours h = h := by
  unfold clampOffsetHours
  rw [if_pos ⟨h1, h2⟩]

/-- Helper: the multiple 3600 * H divides back exactly under truncation. -/
theorem truncDiv_mul_self (H : Int) : truncDiv (3600 * H) 3600 = H := by
  unfold truncDiv
  split <;> omega

/-- Helper: for any sub-day offset s, byte 9 of the built payload read back
as signed is the truncation toward zero of s / 3600. -/
theorem build_time_payload_byte9 (s : Int) (epoch : Nat) (hs1 : -86400 < s)
    (hs2 : s < 86400) (he : epoch < 2 ^ 64) :
    readByte9 (build_time_payload (some s) epoch) =
      some (truncDiv s 3600) := by
  have hb := truncDiv_bounds s hs1 hs2
  have hcl : clampOffsetHours (truncDiv s 3600) = truncDiv s 3600 :=
    clampOffsetHours_id _ (by omega) (by omega)
  unfold build_time_payload
  rw [if_pos he]
  show (((packQLE epoch ++ [0, 0, 0, 0]).set 9
      (pyAnd255 (clampOffsetHours (truncDiv s 3600)))).get? 9).map asInt8 =
    some (truncDiv s 3600)
  rw [hcl, set9_get]
  show some (asInt8 (pyAnd255 (truncDiv s 3600))) = some (truncDiv s 3600)
  rw [asInt8_pyAnd255 _ (by omega) (by omega)]

/-- C4 counterexample: for the non-integer-hour offset of -19800 seconds
(minus five and a half hours), the code stores -5 (truncation toward zero)
at byte 9, not the floor -6 that the claim asserts. -/
theorem c4_floor_counterexample :
    readByte9 (build_time_payload (some (-19800)) 0) = some (-5) ∧
    Int.fdiv (-19800) 3600 = -6 ∧
    (-19800 : Int) % 3600 ≠ 0 ∧
    (-5 : Int) ≠ -6 := by
  refine ⟨by decide, by decide, by decide, by decide⟩

/-- C4 (amended): for a whole-hour offset H within the datetime range,
byte 9 read back signed recovers H clamped to [-128, 127]; for an arbitrary
sub-day offset the stored hour value is the truncation toward zero (not the
floor) of the offset in hours; and a timezone-naive input builds the same
payload as an explicit UTC offset of zero. -/
theorem c4_time_payload_roundtrip :
    (∀ (H : Int) (epoch : Nat), -24 < H → H < 24 → epoch < 2 ^ 64 →
      readByte9 (build_time_payload (some (3600 * H)) epoch) =
        some (max (-128) (min 127 H))) ∧
    (∀ (s : Int) (epoch : Nat), -86400 < s → s < 86400 → epoch < 2 ^ 64 →
      readByte9 (build_time_payload (some s) epoch) =
        some (truncDiv s 3600)) ∧
    (∀ epoch : Nat, build_time_payload none epoch =
      build_time_payload (some 0) epoch) := by
  refine ⟨?_, ?_, fun _ => rfl⟩
  · intro H epoch h1 h2 he
    rw [build_time_payload_byte9 (3600 * H) epoch (by omega) (by omega) he,
      truncDiv_mul_self]
    rw [min_eq_right (by omega : H ≤ 127), max_eq_right (by omega : (-128 : Int) ≤ H)]
  · intro s epoch hs1 hs2 he
    exact build_time_payload_byte9 s epoch hs1 hs2 he

/-- C4 witness: the round trip at offset +2 hours with a concrete epoch, the
truncation at +1.5 hours, and the naive-input case. -/
theorem c4_time_payload_roundtrip_witness :
    readByte9 (build_time_payload (some (3600 * 2)) 1700000000) =
        some (max (-128) (min 127 2)) ∧
      readByte9 (build_time_payload (some 5400) 0) = some (truncDiv 5400 3600) ∧
      build_time_payload none 5 = build_time_payload (some 0) 5 :=
  ⟨c4_time_payload_roundtrip.1 2 1700000000 (by decide) (by decide) (by decide),
    c4_time_payload_roundtrip.2.1 5400 0 (by decide) (by decide) (by decide),
    c4_time_payload_roundtrip.2.2 5⟩

/-- C5 counterexample: the built time payload has 12 bytes (8-byte
little-endian timestamp plus 4 padding bytes), not the 10 bytes the claim
asserts. -/
theorem c5_length_counterexample :
    (build_time_payload (some 7200) 0).map List.length = some 12 ∧
    (12 : Nat) ≠ 10 := by
  refine ⟨by decide, by decide⟩

/-- C5 (amended): for every offset and every epoch representable in 64 bits,
the payload is the 8 little-endian timestamp bytes followed by 4 padding
bytes (12 bytes total) with byte index 9 — the second padding byte —
overwritten by the masked clamped offset hours; the ubersolar
set_current_time payload has the same shape with the constant offset 2. -/
theorem c5_time_payload_shape :
    ∀ (off : Option Int) (epoch : Nat), epoch < 2 ^ 64 →
      build_time_payload off epoch =
        some (packQLE epoch ++
          [0, pyAnd255 (clampOffsetHours (truncDiv (off.getD 0) 3600)), 0, 0]) ∧
      (packQLE epoch).length = 8 ∧
      ubersolar.set_current_time_payload epoch =
        some (packQLE epoch ++ [0, 2, 0, 0]) := by
  intro off epoch he
  refine ⟨?_, rfl, ?_⟩
  · unfold build_time_payload
    rw [if_pos he]
    rfl
  · unfold ubersolar.set_current_time_payload
    rw [if_pos he]
    rfl

/-- C5 witness: the shape theorem instantiated at offset +1 hour and epoch
42 yields a 12-byte payload. -/
theorem c5_time_payload_shape_witness :
    (build_time_payload (some 3600) 42).map List.length = some 12 := by
  have h := (c5_time_payload_shape (some 3600) 42 (by decide)).1
  rw [h]
  rfl

/-- Helper: hex-pair decoding succeeds on every even-length digit string. -/
theorem fromhexPairs_even_isSome :
    ∀ (n : Nat) (s : List Nat), s.length ≤ n → s.length % 2 = 0 →
      (fromhexPairs s).isSome = true := by
  intro n
  induction n with
  | zero =>
    intro s h1 _
    rcases s with _ | ⟨a, t⟩
    · rfl
    · simp at h1
  | succ n ih =>
    intro s h1 h2
    rcases s with _ | ⟨a, _ | ⟨b, rest⟩⟩
    · rfl
    · simp at h2
    · have hr := ih rest (by simp at h1; omega) (by simp at h2 ⊢; omega)
      obtain ⟨bs, hbs⟩ := Option.isSome_iff_exists.mp hr
      simp [fromhexPairs, hbs]

/-- C10 counterexample: for the one-digit hex string 0 (length 1, not 8),
nothing is sent at all: the hex decode of the concatenated command raises
before the write, contrary to the claim that the command is still sent for
every wrongly-sized hex string. -/
theorem c10_counterexample :
    ([0] : List Nat).length ≠ 8 ∧ (0 : Nat) < 16 ∧
    (toggle_switches_all [0]).2 = none := by
  decide

/-- Helper: hex-pair decoding raises on every odd-length digit string. -/
theorem fromhexPairs_odd_none :
    ∀ (n : Nat) (s : List Nat), s.length ≤ n → s.length % 2 = 1 →
      fromhexPairs s = none := by
  intro n
  induction n with
  | zero =>
    intro s h1 h2
    rcases s with _ | ⟨a, t⟩
    · simp at h2
    · simp at h1
  | succ n ih =>
    intro s h1 h2
    rcases s with _ | ⟨a, _ | ⟨b, rest⟩⟩
    · simp at h2
    · rfl
    · have hr := ih rest (by simp at h1; omega) (by simp at h2 ⊢; omega)
      simp [fromhexPairs, hr]

/-- C10 (amended): none of the input-length validations enforce. For every
even-length hex digit string s with length different from 8,
toggle_switches_all logs the error and still sends the command 06 followed
by the bytes of s; for every odd-length hex string the hex decode of the
concatenated command raises before anything is sent; and in the
single-switch toggles the 5-byte check only sets the log flag while the
mutated buffer is sent whenever the byte assignments themselves are in
range, regardless of the buffer length. -/
theorem c10_length_check_not_enforcing :
    (∀ s : List Nat, s.length % 2 = 0 → s.length ≠ 8 →
      (toggle_switches_all s).1 = true ∧
      ∃ bs, fromhexPairs s = some bs ∧
        (toggle_switches_all s).2 = some (6 :: bs)) ∧
    (∀ s : List Nat, s.length % 2 = 1 →
      (toggle_switches_all s).2 = none) ∧
    (∀ (idx v : Nat) (b : List Nat), 1 ≤ idx → idx < b.length →
      (toggle_single_cmd idx v b).1 = decide (b.length ≠ 5) ∧
      (toggle_single_cmd idx v b).2 = some ((b.set 0 6).set idx v)) ∧
    (∀ (v1 v2 : Nat) (b : List Nat), 3 ≤ b.length →
      (toggle_excl_cmd v1 v2 b).1 = decide (b.length ≠ 5) ∧
      (toggle_excl_cmd v1 v2 b).2 =
        some (((b.set 0 6).set 1 v1).set 2 v2)) := by
  refine ⟨?_, ?_, ?_, ?_⟩
  · intro s he h8
    constructor
    · simp [toggle_switches_all, h8]
    · have hs := fromhexPairs_even_isSome s.length s le_rfl he
      obtain ⟨bs, hbs⟩ := Option.isSome_iff_exists.mp hs
      refine ⟨bs, hbs, ?_⟩
      have hstep : fromhexPairs (0 :: 6 :: s) =
          (fromhexPairs s).map (fun t => (16 * 0 + 6) :: t) := rfl
      show fromhexPairs (0 :: 6 :: s) = some (6 :: bs)
      rw [hstep, hbs]
      rfl
  · intro s ho
    have hr := fromhexPairs_odd_none s.length s le_rfl ho
    have hstep : fromhexPairs (0 :: 6 :: s) =
        (fromhexPairs s).map (fun t => (16 * 0 + 6) :: t) := rfl
    show fromhexPairs (0 :: 6 :: s) = none
    rw [hstep, hr]
    rfl
  · intro idx v b h1 h2
    have e1 : pySetItem b 0 6 = some (b.set 0 6) := by
      unfold pySetItem
      rw [if_pos (by omega)]
    have e2 : pySetItem (b.set 0 6) idx v = some ((b.set 0 6).set idx v) := by
      unfold pySetItem
      rw [if_pos (by rw [List.length_set]; omega)]
    exact ⟨rfl, by simp [toggle_single_cmd, e1, e2]⟩
  · intro v1 v2 b h3
    have e1 : pySetItem b 0 6 = some (b.set 0 6) := by
      unfold pySetItem
      rw [if_pos (by omega)]
    have e2 : pySetItem (b.set 0 6) 1 v1 = some ((b.set 0 6).set 1 v1) := by
      unfold pySetItem
      rw [if_pos (by rw [List.length_set]; omega)]
    have e3 : pySetItem ((b.set 0 6).set 1 v1) 2 v2 =
        some (((b.set 0 6).set 1 v1).set 2 v2) := by
      unfold pySetItem
      rw [if_pos (by rw [List.length_set, List.length_set]; omega)]
    exact ⟨rfl, by simp [toggle_excl_cmd, e1, e2, e3]⟩

/-- C10 witness: the 6-digit string 000002 (length 6, not 8) is still sent
as the wire command 06 00 00 02; the 3-digit string 000 sends nothing; and
the element-on mutation and the pyubersolar exclusivity variant on a cached
3-byte buffer log the length error yet still send the mutated buffer. -/
theorem c10_length_check_not_enforcing_witness :
    ((toggle_switches_all [0, 0, 0, 0, 0, 2]).1 = true ∧
      ∃ bs, fromhexPairs [0, 0, 0, 0, 0, 2] = some bs ∧
        (toggle_switches_all [0, 0, 0, 0, 0, 2]).2 = some (6 :: bs)) ∧
    (toggle_switches_all [0, 0, 0]).2 = none ∧
    ((toggle_single_cmd 1 1 [0, 0, 0]).1 =
        decide (([0, 0, 0] : List Nat).length ≠ 5) ∧
      (toggle_single_cmd 1 1 [0, 0, 0]).2 =
        some ((([0, 0, 0] : List Nat).set 0 6).set 1 1)) ∧
    ((toggle_excl_cmd 1 0 [0, 0, 0]).1 =
        decide (([0, 0, 0] : List Nat).length ≠ 5) ∧
      (toggle_excl_cmd 1 0 [0, 0, 0]).2 =
        some (((([0, 0, 0] : List Nat).set 0 6).set 1 1).set 2 0)) :=
  ⟨c10_length_check_not_enforcing.1 [0, 0, 0, 0, 0, 2] (by decide) (by decide),
    c10_length_check_not_enforcing.2.1 [0, 0, 0] (by decide),
    c10_length_check_not_enforcing.2.2.1 1 1 [0, 0, 0] (by decide) (by decide),
    c10_length_check_not_enforcing.2.2.2 1 0 [0, 0, 0] (by decide)⟩
